import Mathlib

/-!
Verification development for the ctftimebot repository.

The Rust sources are shallowly embedded as executable Lean definitions:
machine integers (i64, isize, usize) become Int or Nat, chrono timestamps
become Int epoch seconds relative to UTC (the feed carries second-precision
timestamps with an explicit offset), fallible operations become Option or
Except, and a Rust panic (an .unwrap() failure) is modelled as Option.none.
The lazily initialised global CONFIG is passed explicitly as a Config value,
as are the current instant and the local-timezone rendering functions, which
depend on the ambient environment rather than on the embedded code.
-/

namespace Ctftimebot

/-- Base URL constant from lib.rs: `const BASE_URL: &str = "https://ctftime.org"`. -/
def BASE_URL : String := "https://ctftime.org"

/-- Configuration record from lib.rs (struct Config).  The field
`mattermost_channel` additionally appears in the Config consumed by
src/main.rs (which sets the message channel from it); it is carried here so
that the main pipeline can be embedded faithfully.  `days_into_future` is an
i64, `always_show_ctfs` a Vec of usize. -/
structure Config where
  webhook_url : String
  days_into_future : Int
  color_jeopardy : String
  color_attack_defense : String
  bot_icon : Option String
  always_show_ctfs : List Nat
  mattermost_channel : Option String
deriving DecidableEq

/-- Access restrictions enum from lib.rs (enum CtfRestrictions). -/
inductive CtfRestrictions where
  | Open
  | Prequalified
  | Academic
  | Invited
  | HighSchool
deriving DecidableEq

/-- Embedding of `impl FromStr for CtfRestrictions` (lib.rs lines 194-206).
The associated error type is String and the match arms are copied verbatim. -/
def CtfRestrictions.from_str (s : String) : Except String CtfRestrictions :=
  match s with
  | "Open" => Except.ok CtfRestrictions.Open
  | "Prequalified" => Except.ok CtfRestrictions.Prequalified
  | "High-school" => Except.ok CtfRestrictions.HighSchool
  | "Academic" => Except.ok CtfRestrictions.Academic
  | "Invited" => Except.ok CtfRestrictions.Invited
  | _ => Except.error ("Unknown Restrictions: " ++ s)

/-- CTF format enum from lib.rs (enum CtfFormat). -/
inductive CtfFormat where
  | Jeopardy
  | AttackDefense
  | HackQuest
  | Unknown
deriving DecidableEq

/-- Embedding of `CtfFormat::to_string` (lib.rs lines 217-226). -/
def CtfFormat.to_string : CtfFormat → String
  | CtfFormat.Jeopardy => "Jeopardy"
  | CtfFormat.AttackDefense => "Attack-Defense"
  | CtfFormat.HackQuest => "Hack-Quest"
  | CtfFormat.Unknown => "Unknown"

/-- Embedding of `impl From<isize> for CtfFormat` (lib.rs lines 228-237).
The isize value is modelled as Int. -/
def CtfFormat.fromInt (value : Int) : CtfFormat :=
  if value = 1 then CtfFormat.Jeopardy
  else if value = 2 then CtfFormat.AttackDefense
  else if value = 3 then CtfFormat.HackQuest
  else CtfFormat.Unknown

/-- Team record from lib.rs (struct CtfTeam). -/
structure CtfTeam where
  id : Nat
  name : String
deriving DecidableEq

/-- Embedding of `CtfTeam::to_string` (lib.rs lines 246-250): a markdown
link `[name](BASE_URL/team/id)`. -/
def CtfTeam.to_string (t : CtfTeam) : String :=
  "[" ++ t.name ++ "](" ++ BASE_URL ++ "/team/" ++ toString t.id ++ ")"

/-- Canonical event record from lib.rs (struct CtfEvent).  Timestamps are
epoch seconds (Int).  The `weight` field is an f32 in Rust; its numeric
value is irrelevant to every property proved here, so the raw decoded text
is carried instead of a floating-point value. -/
structure CtfEvent where
  title : String
  link : String
  guid : String
  start_date : Int
  finish_date : Int
  logo_url : Option String
  url : Option String
  format : CtfFormat
  public_votable : Bool
  weight : String
  live_feed : Option String
  restrictions : CtfRestrictions
  location : Option String
  onsite : Bool
  organizers : List CtfTeam
  ctf_id : Nat
  ctf_name : String
deriving DecidableEq

/-- Embedding of `parse_bool` (lib.rs lines 356-362): only the exact
literals "false" and "False" yield false; every other string yields true. -/
def parse_bool (s : String) : Bool :=
  match s with
  | "false" | "False" => false
  | "true" | "True" => true
  | _ => true

/-- Decimal digit accumulation used by the integer-parsing models. -/
def digitsToNat (l : List Char) : Nat :=
  l.foldl (fun a c => a * 10 + (c.toNat - ('0').toNat)) 0

/-- Model of Rust `str::parse::<isize>` as used at lib.rs line 304: an
optional sign followed by a nonempty run of ASCII digits, rejecting
anything else, with the 64-bit isize range check. -/
def rustParseIsize (s : String) : Option Int :=
  let core : List Char → Int → Option Int := fun digits sign =>
    if digits = [] then none
    else if digits.all Char.isDigit then
      let n : Nat := digitsToNat digits
      if sign = 1 ∧ n > 2 ^ 63 - 1 then none
      else if sign = -1 ∧ n > 2 ^ 63 then none
      else some (sign * (n : Int))
    else none
  match s.data with
  | '+' :: rest => core rest 1
  | '-' :: rest => core rest (-1)
  | l => core l 1

/-- Model of Rust `str::parse::<usize>` as used at lib.rs line 328: an
optional leading plus followed by a nonempty run of ASCII digits, with the
64-bit usize range check. -/
def rustParseUsize (s : String) : Option Nat :=
  let core : List Char → Option Nat := fun digits =>
    if digits = [] then none
    else if digits.all Char.isDigit then
      let n : Nat := digitsToNat digits
      if n > 2 ^ 64 - 1 then none else some n
    else none
  match s.data with
  | '+' :: rest => core rest
  | l => core l

/-- Combined decode of the feed format field (lib.rs line 304):
`data.parse::<isize>().unwrap().into()`.  A none result models the unwrap
panic on text that is not an integer. -/
def parseFormatField (s : String) : Option CtfFormat :=
  (rustParseIsize s).map CtfFormat.fromInt

/-- Embedding of `format_duration` (lib.rs lines 96-115).  The chrono
Duration is modelled as a signed number of seconds; `num_days`, `num_hours`,
`num_minutes` and `num_seconds` all truncate toward zero, which is Int.tdiv.
Each Rust `if` block both pushes a formatted part onto `tmp` and decrements
the running duration; here every such block is rendered as two `if`
expressions with the same condition, one for the pushed part and one for
the decremented remainder. -/
def format_duration (d0 : Int) : String :=
  let days := Int.tdiv d0 86400
  let tmp1 : List String :=
    if Int.tdiv d0 3600 > 48 then [toString days ++ " days"] else []
  let d1 : Int :=
    if Int.tdiv d0 3600 > 48 then d0 - 86400 * days else d0
  let hours := Int.tdiv d1 3600
  let tmp2 : List String :=
    if hours > 0 then tmp1 ++ [toString hours ++ " hours"] else tmp1
  let d2 : Int := if hours > 0 then d1 - 3600 * hours else d1
  let minutes := Int.tdiv d2 60
  let tmp3 : List String :=
    if minutes > 0 then tmp2 ++ [toString minutes ++ " minutes"] else tmp2
  let d3 : Int := if minutes > 0 then d2 - 60 * minutes else d2
  let seconds := d3
  let tmp4 : List String :=
    if seconds > 0 then tmp3 ++ [toString seconds ++ " seconds"] else tmp3
  String.intercalate " " tmp4

/-- Embedding of `CtfEvent::should_print_event` (lib.rs lines 172-182).
The global CONFIG and the current instant (UTC::now, epoch seconds) are
explicit parameters.  `num_days` of the chrono duration truncates toward
zero, hence Int.tdiv. -/
def should_print_event (cfg : Config) (now : Int) (e : CtfEvent) : Bool :=
  if cfg.always_show_ctfs.contains e.ctf_id then
    true
  else if e.restrictions ≠ CtfRestrictions.Open ∧ e.restrictions ≠ CtfRestrictions.Academic then
    false
  else
    let days_into_future := Int.tdiv (e.start_date - now) 86400
    !e.onsite && decide (days_into_future ≤ cfg.days_into_future)

/-- Notification attachment produced by `CtfEvent::to_slack`
(the fields the builder at lib.rs lines 153-166 actually sets). -/
structure Attachment where
  fallback : String
  title : String
  text : String
  color : String
  thumb_url : Option String
deriving DecidableEq

/-- Unconditional prefix of the body text assembled by `CtfEvent::to_slack`
(the format! at lib.rs lines 128-136): date line, organizers line, link
line, blank line.  `renderLocalDate` models
`start_date.with_timezone(&Local).format("%A, %F %R")`, which depends on the
ambient local timezone. -/
def slack_base (renderLocalDate : Int → String) (e : CtfEvent) : String :=
  "**Date:** " ++ renderLocalDate e.start_date ++ " for "
    ++ format_duration (e.finish_date - e.start_date)
    ++ "\n**Organizers:** "
    ++ String.intercalate ", " (e.organizers.map CtfTeam.to_string)
    ++ "\n[" ++ (e.url.getD e.link) ++ "](" ++ (e.url.getD e.link) ++ ")\n\n"

/-- Body text assembled by `CtfEvent::to_slack` (lib.rs lines 128-155):
the fixed template, then a conditional location line, then a conditional
Prequalified note, finally trimmed when handed to the builder. -/
def to_slack_text (renderLocalDate : Int → String) (e : CtfEvent) : String :=
  let text := slack_base renderLocalDate e
  let text :=
    if e.onsite then
      match e.location with
      | some location => text ++ ("**Location:** " ++ location ++ "\n")
      | none => text
    else text
  let text :=
    if e.restrictions = CtfRestrictions.Prequalified then
      text ++ "Prequalified teams only\n"
    else text
  text.trim

/-- Embedding of `CtfEvent::to_slack` (lib.rs lines 118-167).
`renderLocalDate` and `renderNaiveLocalDate` model the two Local-timezone
date renderings of the body and the fallback; the hex-colour validation
performed by the slack_hook builder is not modelled (the configured colour
string is carried through unchanged). -/
def to_slack (renderLocalDate renderNaiveLocalDate : Int → String)
    (cfg : Config) (e : CtfEvent) : Attachment :=
  let duration := format_duration (e.finish_date - e.start_date)
  let title := e.title ++ " — " ++ e.format.to_string
  let url := e.url.getD e.link
  let fallback := title ++ "\nDate: " ++ renderNaiveLocalDate e.start_date
    ++ " for " ++ duration ++ "\n" ++ url
  { fallback := fallback
    title := title
    text := to_slack_text renderLocalDate e
    color := if e.format = CtfFormat.AttackDefense then cfg.color_attack_defense
             else cfg.color_jeopardy
    thumb_url := e.logo_url }

/-- Webhook message from mattermost_hook_api.rs (struct Message), restricted
to the fields src/main.rs ever sets; the remaining optional fields
(icon_emoji, type, props) stay at their defaults throughout the program and
are omitted. -/
structure Message where
  text : Option String
  channel : Option String
  username : Option String
  icon_url : Option String
  attachments : List Attachment
deriving DecidableEq

/-- Embedding of the decision logic of `main` (src/main.rs lines 18-47)
after the feed has been fetched and decoded: filter with
should_print_event, map to_slack, and either exit early with no payload
(modelled as none) when nothing survived, or build the Message that is
posted to the webhook. -/
def main_run (renderLocalDate renderNaiveLocalDate : Int → String)
    (cfg : Config) (now : Int) (events : List CtfEvent) : Option Message :=
  let attachments := (events.filter (should_print_event cfg now)).map
    (to_slack renderLocalDate renderNaiveLocalDate cfg)
  if attachments.isEmpty then
    none
  else
    let message : Message :=
      { text := some "[Upcoming CTFs](https://ctftime.org/event/list/upcoming)"
        channel := none
        username := some "Upcoming CTFs"
        icon_url := none
        attachments := attachments }
    let message :=
      match cfg.mattermost_channel with
      | some c => { message with channel := some c }
      | none => message
    let message :=
      match cfg.bot_icon with
      | some u => { message with icon_url := some u }
      | none => message
    some message

/-- Token stream alphabet of the xml-rs EventReader as consumed by
`parse_ctftime_feed` (lib.rs lines 261-351).  `ErrorEvt` models
`Err(e)` from the reader; `Other` covers every further `Ok` variant
(StartDocument, whitespace, comments, CData), which the loop ignores. -/
inductive XmlEvt where
  | StartElement (name : String)
  | EndElement (name : String)
  | Characters (d : String)
  | EndDocument
  | ErrorEvt
  | Other
deriving DecidableEq

/-- Partial event under construction, from the derive_builder-generated
CtfEventBuilder.  Mandatory fields are Option-wrapped and must be set
before build; the four fields declared with `#[builder(default="None")]`
(logo_url, url, live_feed, location) default to absent, and their setters
only ever store a present value, so they are carried directly. -/
structure CtfEventBuilder where
  title : Option String := none
  link : Option String := none
  guid : Option String := none
  start_date : Option Int := none
  finish_date : Option Int := none
  logo_url : Option String := none
  url : Option String := none
  format : Option CtfFormat := none
  public_votable : Option Bool := none
  weight : Option String := none
  live_feed : Option String := none
  restrictions : Option CtfRestrictions := none
  location : Option String := none
  onsite : Option Bool := none
  organizers : Option (List CtfTeam) := none
  ctf_id : Option Nat := none
  ctf_name : Option String := none
deriving DecidableEq

/-- Embedding of `CtfEventBuilder::build` (lib.rs line 273): succeeds iff
every mandatory field has been set; none models the builder error that the
surrounding `.unwrap()` turns into a panic. -/
def CtfEventBuilder.build (b : CtfEventBuilder) : Option CtfEvent :=
  match b.title, b.link, b.guid, b.start_date, b.finish_date, b.format,
      b.public_votable, b.weight, b.restrictions, b.onsite, b.organizers,
      b.ctf_id, b.ctf_name with
  | some title, some link, some guid, some start_date, some finish_date,
      some format, some public_votable, some weight, some restrictions,
      some onsite, some organizers, some ctf_id, some ctf_name =>
    some { title := title, link := link, guid := guid,
           start_date := start_date, finish_date := finish_date,
           logo_url := b.logo_url, url := b.url, format := format,
           public_votable := public_votable, weight := weight,
           live_feed := b.live_feed, restrictions := restrictions,
           location := b.location, onsite := onsite,
           organizers := organizers, ctf_id := ctf_id, ctf_name := ctf_name }
  | _, _, _, _, _, _, _, _, _, _, _, _, _ => none

/-- Leaf string-to-value conversions delegated to external libraries at the
end-tag branches of `parse_ctftime_feed`: `parseDatetime` models
`DateTime::parse_from_str(_, "%Y%m%dT%H%M%S%z")` from chrono (lib.rs lines
288-295, applied to the captured text with "+0000" appended, yielding epoch
seconds), `parseWeight` models `str::parse::<f32>` (line 310, the decoded
text is carried, floating-point value semantics being outside this
embedding), and `parseOrganizers` models
`serde_json::from_str::<Vec<CtfTeam>>` (line 325).  None models the parse
error that the surrounding `.unwrap()` turns into a panic.  Every theorem
about the decoder is proved for all values of these three functions. -/
structure FieldParsers where
  parseDatetime : String → Option Int
  parseWeight : String → Option String
  parseOrganizers : String → Option (List CtfTeam)

/-- Mutable state of the decode loop of `parse_ctftime_feed`
(lib.rs lines 257-260): the collected events, the inside-an-item flag, the
builder for the current item, and the most recently captured text block. -/
structure PState where
  result : List CtfEvent
  in_item : Bool
  builder : CtfEventBuilder
  data : Option String
deriving DecidableEq

/-- End-tag dispatch of `parse_ctftime_feed` (the match at lib.rs lines
269-334), before the unconditional `data = None`.  Each field arm fires
only when a text block was captured (`if data.is_some()`); an unmatched
name, or a matched name without captured data, falls through to the final
catch-all and leaves the state unchanged.  None models a panic from one of
the inner `.unwrap()` calls. -/
def processEndTag (fp : FieldParsers) (st : PState) (name : String) : Option PState :=
  match name, st.data with
  | "item", _ =>
    match st.builder.build with
    | some ev => some { st with in_item := false, result := st.result ++ [ev],
                                builder := {} }
    | none => none
  | "title", some d => some { st with builder := { st.builder with title := some d } }
  | "link", some d => some { st with builder := { st.builder with link := some d } }
  | "guid", some d => some { st with builder := { st.builder with guid := some d } }
  | "start_date", some d =>
    (fp.parseDatetime (d ++ "+0000")).map
      (fun t => { st with builder := { st.builder with start_date := some t } })
  | "finish_date", some d =>
    (fp.parseDatetime (d ++ "+0000")).map
      (fun t => { st with builder := { st.builder with finish_date := some t } })
  | "logo_url", some d =>
    some { st with builder := { st.builder with logo_url := some (BASE_URL ++ d) } }
  | "url", some d => some { st with builder := { st.builder with url := some d } }
  | "format", some d =>
    (parseFormatField d).map
      (fun f => { st with builder := { st.builder with format := some f } })
  | "public_votable", some d =>
    some { st with builder := { st.builder with public_votable := some (parse_bool d) } }
  | "weight", some d =>
    (fp.parseWeight d).map
      (fun w => { st with builder := { st.builder with weight := some w } })
  | "live_feed", some d =>
    some { st with builder := { st.builder with live_feed := some d } }
  | "restrictions", some d =>
    match CtfRestrictions.from_str d with
    | Except.ok r => some { st with builder := { st.builder with restrictions := some r } }
    | Except.error _ => none
  | "location", some d =>
    some { st with builder := { st.builder with location := some d } }
  | "onsite", some d =>
    some { st with builder := { st.builder with onsite := some (parse_bool d) } }
  | "organizers", some d =>
    (fp.parseOrganizers d).map
      (fun ts => { st with builder := { st.builder with organizers := some ts } })
  | "ctf_id", some d =>
    (rustParseUsize d).map
      (fun n => { st with builder := { st.builder with ctf_id := some n } })
  | "ctf_name", some d =>
    some { st with builder := { st.builder with ctf_name := some d } }
  | _, _ => some st

/-- One iteration of the decode loop of `parse_ctftime_feed` on a
non-terminating token (lib.rs lines 263-342): start tags set the
inside-an-item flag, end tags dispatch on the tag name and then always
clear the captured text block, character data is captured only while inside
an item, everything else is ignored.  None models a panic. -/
def pstep (fp : FieldParsers) (st : PState) (evt : XmlEvt) : Option PState :=
  match evt with
  | XmlEvt.StartElement name =>
    some (if name = "item" then { st with in_item := true } else st)
  | XmlEvt.EndElement name =>
    (processEndTag fp st name).map (fun st₁ => { st₁ with data := none })
  | XmlEvt.Characters d =>
    some (if st.in_item then { st with data := some d } else st)
  | _ => some st

/-- Decode loop of `parse_ctftime_feed` over a finite token stream: an
error token or the end-of-document token breaks the loop and returns the
events collected so far; an exhausted stream is treated the same way.
None models a panic inside the loop body. -/
def runFeed (fp : FieldParsers) : List XmlEvt → PState → Option (List CtfEvent)
  | [], st => some st.result
  | evt :: rest, st =>
    match evt with
    | XmlEvt.ErrorEvt => some st.result
    | XmlEvt.EndDocument => some st.result
    | _ =>
      match pstep fp st evt with
      | some st₁ => runFeed fp rest st₁
      | none => none

/-- Embedding of `parse_ctftime_feed` (lib.rs lines 254-354) from its
initial state. -/
def parse_ctftime_feed (fp : FieldParsers) (stream : List XmlEvt) : Option (List CtfEvent) :=
  runFeed fp stream { result := [], in_item := false, builder := {}, data := none }

/-! Shared helper lemmas and concrete fixtures used by the claim theorems. -/

/-- Truncating division of a negative value by a positive one is nonpositive. -/
theorem tdiv_nonpos_of_neg (s b : Int) (hs : s < 0) (hb : 0 ≤ b) :
    Int.tdiv s b ≤ 0 := by
  have h₁ : (0 : Int) ≤ -s := by omega
  have h₂ : (0 : Int) ≤ Int.tdiv (-s) b := Int.tdiv_nonneg h₁ hb
  rw [Int.neg_tdiv] at h₂
  omega

/-- Concrete configuration fixture with an always-show entry. -/
def cfgAlways : Config :=
  { webhook_url := "https://chat.example/hook"
    days_into_future := 21
    color_jeopardy := "#0099e1"
    color_attack_defense := "#da5422"
    bot_icon := none
    always_show_ctfs := [109]
    mattermost_channel := none }

/-- Concrete configuration fixture with an empty always-show list. -/
def cfgPlain : Config :=
  { webhook_url := "https://chat.example/hook"
    days_into_future := 21
    color_jeopardy := "#0099e1"
    color_attack_defense := "#da5422"
    bot_icon := none
    always_show_ctfs := []
    mattermost_channel := none }

/-- Concrete event fixture: invite-only, onsite, starting far in the future,
belonging to series 109. -/
def evHostile : CtfEvent :=
  { title := "Closed Cup 2017"
    link := "https://ctftime.org/event/1"
    guid := "https://ctftime.org/event/1"
    start_date := 100 * 86400
    finish_date := 100 * 86400 + 3600
    logo_url := none
    url := none
    format := CtfFormat.Unknown
    public_votable := false
    weight := "0"
    live_feed := none
    restrictions := CtfRestrictions.Invited
    location := some "Nowhere"
    onsite := true
    organizers := []
    ctf_id := 109
    ctf_name := "Closed Cup" }

/-- Concrete event fixture: open, online, already started (start one day in
the past), series 7. -/
def evStarted : CtfEvent :=
  { title := "Open Quals 2017"
    link := "https://ctftime.org/event/2"
    guid := "https://ctftime.org/event/2"
    start_date := -86400
    finish_date := 86400
    logo_url := none
    url := none
    format := CtfFormat.Jeopardy
    public_votable := true
    weight := "25"
    live_feed := none
    restrictions := CtfRestrictions.Open
    location := none
    onsite := false
    organizers := [{ id := 42, name := "Example Team" }]
    ctf_id := 7
    ctf_name := "Open Quals" }

/-- C2: an event whose series identifier is in the configured always-show
set passes the visibility filter unconditionally, whatever its
restrictions, onsite flag and start time are. -/
theorem should_print_event_always_show (cfg : Config) (now : Int) (e : CtfEvent)
    (h : cfg.always_show_ctfs.contains e.ctf_id = true) :
    should_print_event cfg now e = true := by
  have hm : e.ctf_id ∈ cfg.always_show_ctfs := by simpa using h
  simp [should_print_event, hm]

/-- Witness for C2 at a concrete input: an invite-only onsite event far in
the future is still shown because its series is in the always-show set. -/
theorem should_print_event_always_show_witness :
    cfgAlways.always_show_ctfs.contains evHostile.ctf_id = true ∧
    should_print_event cfgAlways 0 evHostile = true :=
  ⟨by decide, should_print_event_always_show cfgAlways 0 evHostile (by decide)⟩

/-- C1: for an event whose series identifier is not in the always-show set,
the visibility filter returns true iff the restrictions are Open or
Academic, the event is not onsite, and the whole-day count (truncating
toward zero) from the current instant to the start time is at most the
configured lookahead; no lower bound on that day count is enforced. -/
theorem should_print_event_filter_iff (cfg : Config) (now : Int) (e : CtfEvent)
    (h : cfg.always_show_ctfs.contains e.ctf_id = false) :
    should_print_event cfg now e = true ↔
      ((e.restrictions = CtfRestrictions.Open ∨ e.restrictions = CtfRestrictions.Academic)
        ∧ e.onsite = false
        ∧ Int.tdiv (e.start_date - now) 86400 ≤ cfg.days_into_future) := by
  rw [should_print_event]
  rw [h]
  by_cases hr : e.restrictions = CtfRestrictions.Open ∨ e.restrictions = CtfRestrictions.Academic
  · have hcond : ¬(e.restrictions ≠ CtfRestrictions.Open ∧
        e.restrictions ≠ CtfRestrictions.Academic) := by tauto
    simp only [Bool.false_eq_true, if_false, if_neg hcond]
    cases honsite : e.onsite <;> simp [hr]
  · have hcond : e.restrictions ≠ CtfRestrictions.Open ∧
        e.restrictions ≠ CtfRestrictions.Academic := by tauto
    simp only [Bool.false_eq_true, if_false, if_pos hcond]
    simp [hr]

/-- Witness for C1 at a concrete input: an open online event that already
started (negative day count) passes a 21-day lookahead filter. -/
theorem should_print_event_filter_iff_witness :
    cfgPlain.always_show_ctfs.contains evStarted.ctf_id = false ∧
    should_print_event cfgPlain 0 evStarted = true :=
  ⟨by decide,
   (should_print_event_filter_iff cfgPlain 0 evStarted (by decide)).mpr
     (by refine ⟨Or.inl rfl, rfl, ?_⟩; decide)⟩

/-- Conditional push onto an accumulator equals appending a conditional
singleton block. -/
theorem ite_append_left {c : Prop} [Decidable c] (l x : List String) :
    (if c then l ++ x else l) = l ++ (if c then x else []) := by
  split <;> simp

/-- C3: format_duration renders greedily — a days part is emitted exactly
when the total hours (truncating) exceed 48, then hours, minutes and
seconds parts exactly when the remaining value is positive, joined with a
single space; a zero duration renders as the empty string, a 49-hour
duration carries a days component, and an exact 48-hour duration does not. -/
theorem format_duration_emission :
    (∀ d0 : Int,
      format_duration d0 =
        (let dayPart : List String :=
           if Int.tdiv d0 3600 > 48 then [toString (Int.tdiv d0 86400) ++ " days"] else []
         let rem1 : Int :=
           if Int.tdiv d0 3600 > 48 then d0 - 86400 * Int.tdiv d0 86400 else d0
         let hourPart : List String :=
           if Int.tdiv rem1 3600 > 0 then [toString (Int.tdiv rem1 3600) ++ " hours"] else []
         let rem2 : Int :=
           if Int.tdiv rem1 3600 > 0 then rem1 - 3600 * Int.tdiv rem1 3600 else rem1
         let minutePart : List String :=
           if Int.tdiv rem2 60 > 0 then [toString (Int.tdiv rem2 60) ++ " minutes"] else []
         let rem3 : Int :=
           if Int.tdiv rem2 60 > 0 then rem2 - 60 * Int.tdiv rem2 60 else rem2
         let secondPart : List String :=
           if rem3 > 0 then [toString rem3 ++ " seconds"] else []
         String.intercalate " " (dayPart ++ hourPart ++ minutePart ++ secondPart)))
    ∧ format_duration 0 = ""
    ∧ format_duration (49 * 3600) = "2 days 1 hours"
    ∧ format_duration (48 * 3600) = "48 hours" := by
  refine ⟨fun d0 => ?_, by decide, by decide, by decide⟩
  simp only [format_duration, ite_append_left]

/-- C10: a negative duration — an event whose end time precedes its start
time — renders as the empty string, because every emission branch of
format_duration requires a strictly positive remaining value. -/
theorem format_duration_negative_empty (start finish : Int) (h : finish < start) :
    format_duration (finish - start) = "" := by
  have hneg : finish - start < 0 := by omega
  have h₁ : Int.tdiv (finish - start) 3600 ≤ 0 :=
    tdiv_nonpos_of_neg _ _ hneg (by norm_num)
  have h₂ : Int.tdiv (finish - start) 60 ≤ 0 :=
    tdiv_nonpos_of_neg _ _ hneg (by norm_num)
  have hc1 : ¬(Int.tdiv (finish - start) 3600 > 48) := by omega
  have hc2 : ¬(Int.tdiv (finish - start) 3600 > 0) := by omega
  have hc3 : ¬(Int.tdiv (finish - start) 60 > 0) := by omega
  have hc4 : ¬(finish - start > 0) := by omega
  simp only [format_duration, if_neg hc1, if_neg hc2, if_neg hc3, if_neg hc4]
  rfl

/-- Witness for C10 at a concrete input: a duration of minus five seconds
renders as the empty string. -/
theorem format_duration_negative_empty_witness :
    format_duration (0 - 5) = "" :=
  format_duration_negative_empty 5 0 (by decide)

/-- Concrete external-parser fixture used to evaluate the decoder at
specific inputs (the branches exercised below never call these functions). -/
def fpFixture : FieldParsers :=
  { parseDatetime := fun _ => none
    parseWeight := fun s => some s
    parseOrganizers := fun _ => none }

/-- Counterexample for C4: the XML-feed decoding of the format field is not
total on arbitrary input text — a non-integer literal (empty or otherwise)
fails the isize parse and panics (modelled as none) instead of mapping to
Unknown. -/
theorem format_field_error_counterexample :
    parseFormatField "" = none ∧ parseFormatField "abc" = none ∧
    pstep fpFixture { result := [], in_item := true, builder := {}, data := some "abc" }
        (XmlEvt.EndElement "format") = none := by
  refine ⟨by decide, by decide, by decide⟩

/-- C4 (amended): the format field text is first parsed as a signed 64-bit
integer — non-integer text, including the empty string, is a hard decode
error — and the resulting integer code maps 1 to Jeopardy, 2 to
AttackDefense, 3 to HackQuest and every other integer to Unknown, never an
error at the integer-to-format stage. -/
theorem format_field_mapping :
    CtfFormat.fromInt 1 = CtfFormat.Jeopardy ∧
    CtfFormat.fromInt 2 = CtfFormat.AttackDefense ∧
    CtfFormat.fromInt 3 = CtfFormat.HackQuest ∧
    (∀ n : Int, n ≠ 1 → n ≠ 2 → n ≠ 3 → CtfFormat.fromInt n = CtfFormat.Unknown) ∧
    (∀ s n, rustParseIsize s = some n → parseFormatField s = some (CtfFormat.fromInt n)) ∧
    (∀ s, rustParseIsize s = none → parseFormatField s = none) := by
  refine ⟨rfl, rfl, rfl, ?_, ?_, ?_⟩
  · intro n h1 h2 h3
    simp [CtfFormat.fromInt, h1, h2, h3]
  · intro s n h
    simp [parseFormatField, h]
  · intro s h
    simp [parseFormatField, h]

/-- Witness for C4 (amended) at concrete inputs: the literal "2" decodes to
AttackDefense, the off-range code 7 maps to Unknown, and the non-integer
literal "x" is a decode error. -/
theorem format_field_mapping_witness :
    parseFormatField "2" = some CtfFormat.AttackDefense ∧
    CtfFormat.fromInt 7 = CtfFormat.Unknown ∧
    parseFormatField "x" = none := by
  refine ⟨?_, ?_, ?_⟩
  · have h := format_field_mapping.2.2.2.2.1 "2" 2 (by decide)
    simpa using h
  · exact format_field_mapping.2.2.2.1 7 (by decide) (by decide) (by decide)
  · exact format_field_mapping.2.2.2.2.2 "x" (by decide)

/-- Counterexample for C5: the literal "FALSE" is a case variant of
"false" (its characters are identical after lowercasing), yet parse_bool
maps it to true, so the result is not false on every case variant of
"false". -/
theorem parse_bool_uppercase_counterexample :
    parse_bool "FALSE" = true ∧
    ("FALSE").data.map Char.toLower = ("false").data.map Char.toLower := by
  refine ⟨by decide, by decide⟩

/-- C5 (amended): parse_bool returns false exactly on the two literals
"false" and "False", and true on every other string (including the empty
string and every other casing of false). -/
theorem parse_bool_false_literals :
    ∀ s : String, parse_bool s = false ↔ (s = "false" ∨ s = "False") := by
  intro s
  unfold parse_bool
  split <;> simp_all

/-- Witness for C5 (amended) at concrete inputs: "False" maps to false and
the empty string maps to true. -/
theorem parse_bool_false_literals_witness :
    parse_bool "False" = false ∧ ¬ parse_bool "" = false :=
  ⟨(parse_bool_false_literals "False").mpr (Or.inr rfl),
   fun h => by simpa using (parse_bool_false_literals "").mp h⟩

/-- C6: decoding a restrictions value succeeds exactly on the five literals
"Open", "Prequalified", "High-school", "Academic" and "Invited", with
"High-school" mapping to HighSchool and the others mapping one-to-one to
their enumerated values, and every other literal is a hard decode error. -/
theorem restrictions_decode_exact :
    (∀ s r, CtfRestrictions.from_str s = Except.ok r ↔
      ((s = "Open" ∧ r = CtfRestrictions.Open) ∨
       (s = "Prequalified" ∧ r = CtfRestrictions.Prequalified) ∨
       (s = "High-school" ∧ r = CtfRestrictions.HighSchool) ∨
       (s = "Academic" ∧ r = CtfRestrictions.Academic) ∨
       (s = "Invited" ∧ r = CtfRestrictions.Invited)))
    ∧ (∀ s, s ≠ "Open" → s ≠ "Prequalified" → s ≠ "High-school" →
        s ≠ "Academic" → s ≠ "Invited" →
        CtfRestrictions.from_str s = Except.error ("Unknown Restrictions: " ++ s)) := by
  constructor
  · intro s r
    unfold CtfRestrictions.from_str
    split <;> simp_all <;> exact eq_comm
  · intro s h1 h2 h3 h4 h5
    unfold CtfRestrictions.from_str
    split <;> simp_all

/-- Witness for C6 at concrete inputs: "High-school" decodes to HighSchool
and the unrecognized literal "Closed" is a decode error carrying its
message. -/
theorem restrictions_decode_exact_witness :
    CtfRestrictions.from_str "High-school" = Except.ok CtfRestrictions.HighSchool ∧
    CtfRestrictions.from_str "Closed" = Except.error "Unknown Restrictions: Closed" := by
  refine ⟨?_, ?_⟩
  · exact (restrictions_decode_exact.1 "High-school" CtfRestrictions.HighSchool).mpr
      (Or.inr (Or.inr (Or.inl ⟨rfl, rfl⟩)))
  · have h := restrictions_decode_exact.2 "Closed"
      (by decide) (by decide) (by decide) (by decide) (by decide)
    simpa using h

/-- C7: the synthesized message body is the fixed template followed by a
location line exactly when the event is onsite and a location is present,
then the fixed Prequalified note exactly when the restrictions equal
Prequalified, with leading and trailing whitespace trimmed. -/
theorem to_slack_text_structure :
    ∀ (renderLocalDate : Int → String) (e : CtfEvent),
      to_slack_text renderLocalDate e =
        String.trim ((slack_base renderLocalDate e ++
          (if e.onsite && e.location.isSome then
            "**Location:** " ++ e.location.getD "" ++ "\n" else "")) ++
          (if e.restrictions = CtfRestrictions.Prequalified then
            "Prequalified teams only\n" else "")) := by
  intro renderLocalDate e
  unfold to_slack_text
  cases ho : e.onsite <;> cases hl : e.location <;>
    by_cases hr : e.restrictions = CtfRestrictions.Prequalified <;>
      simp_all [String.append_empty]

/-- C9: in the XML-feed decoder, character data is captured only while the
inside-an-item flag is set (outside an item the state is completely
unchanged, so such text never contributes to a decoded event), a captured
block overwrites the previous one, and whenever an end tag is processed
successfully the captured text block is cleared, so a text block can feed
at most the first matching end tag that follows it. -/
theorem feed_capture_invariants :
    ∀ (fp : FieldParsers) (st : PState) (s name : String),
      (st.in_item = false → pstep fp st (XmlEvt.Characters s) = some st)
      ∧ (st.in_item = true →
          pstep fp st (XmlEvt.Characters s) = some { st with data := some s })
      ∧ (∀ st₁, pstep fp st (XmlEvt.EndElement name) = some st₁ → st₁.data = none) := by
  intro fp st s name
  refine ⟨?_, ?_, ?_⟩
  · intro h
    simp [pstep, h]
  · intro h
    simp [pstep, h]
  · intro st₁ h
    simp only [pstep] at h
    cases hp : processEndTag fp st name with
    | none =>
      rw [hp] at h
      exact absurd h (by simp)
    | some st₂ =>
      rw [hp] at h
      simp only [Option.map_some', Option.some.injEq] at h
      rw [← h]

/-- Witness for C9 at concrete inputs: text outside an item leaves the
state untouched, text inside an item is captured, and after the title end
tag consumes a captured block the data slot is cleared. -/
theorem feed_capture_invariants_witness :
    pstep fpFixture { result := [], in_item := false, builder := {}, data := none }
        (XmlEvt.Characters "stray") =
      some { result := [], in_item := false, builder := {}, data := none } ∧
    pstep fpFixture { result := [], in_item := true, builder := {}, data := none }
        (XmlEvt.Characters "FAUST CTF 2017") =
      some { result := [], in_item := true, builder := {},
             data := some "FAUST CTF 2017" } ∧
    PState.data { result := [], in_item := true,
                  builder := { title := some "FAUST CTF 2017" }, data := none } = none := by
  refine ⟨?_, ?_, ?_⟩
  · exact (feed_capture_invariants fpFixture
      { result := [], in_item := false, builder := {}, data := none }
      "stray" "title").1 rfl
  · exact (feed_capture_invariants fpFixture
      { result := [], in_item := true, builder := {}, data := none }
      "FAUST CTF 2017" "title").2.1 rfl
  · exact (feed_capture_invariants fpFixture
      { result := [], in_item := true, builder := {}, data := some "FAUST CTF 2017" }
      "x" "title").2.2
      { result := [], in_item := true,
        builder := { title := some "FAUST CTF 2017" }, data := none }
      (by decide)

/-- C8: when zero events survive the visibility filter the run produces no
notification payload at all (none), and conversely any payload it does
produce carries a nonempty attachment list — an empty-attachment payload is
never sent. -/
theorem main_run_empty_no_payload :
    ∀ (rl rn : Int → String) (cfg : Config) (now : Int) (events : List CtfEvent),
      (main_run rl rn cfg now events = none ↔
        events.filter (should_print_event cfg now) = [])
      ∧ (∀ m, main_run rl rn cfg now events = some m → m.attachments ≠ []) := by
  intro rl rn cfg now events
  unfold main_run
  by_cases h : (events.filter (should_print_event cfg now)).map (to_slack rl rn cfg) = []
  · rw [if_pos (by simp [h])]
    constructor
    · simp only [true_iff]
      exact List.map_eq_nil_iff.mp h
    · intro m hm
      simp at hm
  · rw [if_neg (by simpa using h)]
    constructor
    · constructor
      · intro hx
        cases hcm : cfg.mattermost_channel <;> cases hbi : cfg.bot_icon <;>
          simp_all
      · intro hx
        exact absurd (by simp [hx]) h
    · intro m hm
      have hatts : m.attachments = (events.filter (should_print_event cfg now)).map
          (to_slack rl rn cfg) := by
        cases hcm : cfg.mattermost_channel <;> cases hbi : cfg.bot_icon <;>
          simp_all <;> rw [← hm]
      rw [hatts]
      exact h

/-- Witness for C8 at concrete inputs: with no surviving event the run
sends nothing, and with one surviving event the payload carries a nonempty
attachment list. -/
theorem main_run_empty_no_payload_witness :
    main_run (fun _ => "d") (fun _ => "d") cfgPlain 0 [evHostile] = none ∧
    ∀ m, main_run (fun _ => "d") (fun _ => "d") cfgPlain 0 [evStarted] = some m →
      m.attachments ≠ [] :=
  ⟨(main_run_empty_no_payload (fun _ => "d") (fun _ => "d") cfgPlain 0 [evHostile]).1.mpr
      (by decide),
   fun m hm =>
    (main_run_empty_no_payload (fun _ => "d") (fun _ => "d") cfgPlain 0 [evStarted]).2 m hm⟩

end Ctftimebot
